import Mathlib

/-!
Verification of the container-image asset publishing step
(`prepareContainerAsset` in `packages/aws-cdk/lib/docker.ts`).

The TypeScript function is shallowly embedded as a pure Lean function.  The
two external collaborators — the ECR registry operations exposed through
`ToolkitInfo` and the external command runner `shell` — are modelled as
oracle functions returning `Except JsError`, and the embedding additionally
threads an explicit event trace recording every collaborator invocation in
order, so that claims about *which* registry calls and shell commands are
performed (and in which order) are expressible and provable.
-/

/-- Model of a JavaScript error value as observed by this module: the
optional `code` property (the module inspects `e.code === 'ENOENT'`) and the
message. -/
structure JsError where
  code : Option String := none
  message : String := ""
  deriving DecidableEq, Repr

/-- Model of `cx-api`'s `ContainerImageAssetMetadataEntry` restricted to the
fields this module reads.  Optional string fields of the TypeScript interface
become `Option String`; the optional `buildArgs` map becomes an
insertion-ordered association list. -/
structure ContainerImageAssetMetadataEntry where
  id : String := ""
  packaging : String := "container-image"
  path : String := ""
  sourceHash : String := ""
  repositoryName : Option String := none
  imageTag : Option String := none
  imageNameParameter : Option String := none
  buildArgs : Option (List (String × String)) := none
  target : Option String := none
  file : Option String := none
  deriving DecidableEq, Repr

/-- The repository handle returned by `toolkitInfo.prepareEcrRepository`. -/
structure EcrRepositoryInfo where
  repositoryUri : String
  repositoryName : String
  deriving DecidableEq, Repr

/-- The short-lived registry credentials returned by
`toolkitInfo.getEcrCredentials`. -/
structure EcrCredentials where
  username : String
  password : String
  endpoint : String
  deriving DecidableEq, Repr

/-- Model of `CloudFormation.Parameter`: each field of the record literal the
source constructs is optional. -/
structure Parameter where
  ParameterKey : Option String := none
  ParameterValue : Option String := none
  UsePreviousValue : Option Bool := none
  deriving DecidableEq, Repr

deriving instance DecidableEq for Except

/-- The oracle for the `ToolkitInfo` collaborator: each registry-facing
method the module calls, as a function returning either a JavaScript error
(a rejected promise) or its result. -/
structure ToolkitInfo where
  prepareEcrRepository : ContainerImageAssetMetadataEntry → Except JsError EcrRepositoryInfo
  checkEcrImage : String → String → Except JsError Bool
  getEcrCredentials : Except JsError EcrCredentials

/-- One collaborator invocation, recorded in order in the trace. -/
inductive Event where
  | prepareEcrRepository (asset : ContainerImageAssetMetadataEntry)
  | checkEcrImage (repositoryName : String) (imageTag : String)
  | getEcrCredentials
  | shell (command : List String)
  deriving DecidableEq, Repr

/-- JavaScript truthiness of an optional string (`undefined` and the empty
string are falsy), as used by the source's `if (!asset.imageNameParameter)`,
`if (asset.repositoryName && asset.imageTag)`, `if (asset.target)` and
`if (asset.file)` tests. -/
def truthy : Option String → Bool
  | none => false
  | some s => !s.isEmpty

/-- Models JavaScript `String.prototype.startsWith`. -/
def startsWithStr (pre s : String) : Bool :=
  pre.data.isPrefixOf s.data

/-- Whitespace predicate for `jsTrim`. -/
def wsChar (c : Char) : Bool :=
  c == ' ' || c == '\t' || c == '\n' || c == '\r'

/-- Models JavaScript `String.prototype.trim` (leading and trailing
whitespace removed). -/
def jsTrim (s : String) : String :=
  String.mk (((s.data.dropWhile wsChar).reverse.dropWhile wsChar).reverse)

/-- Models JavaScript `String.prototype.split('|')` (single-character
separator, as used by the source on the digest list). -/
def splitPipe (s : String) : List String :=
  (s.data.splitOn '|').map String.mk

/-- Scanning helper for `replaceFirst`: replace the first occurrence of the
non-empty pattern in the character list. -/
def replaceFirstAux (pat repl : List Char) : List Char → List Char
  | [] => []
  | c :: cs =>
    if pat.isPrefixOf (c :: cs) then repl ++ (c :: cs).drop pat.length
    else c :: replaceFirstAux pat repl cs

/-- Models JavaScript `String.prototype.replace` with a string pattern: only
the first occurrence is replaced; an empty pattern matches at position 0. -/
def replaceFirst (s pat repl : String) : String :=
  if pat.data.isEmpty then repl ++ s
  else String.mk (replaceFirstAux pat.data repl.data s.data)

/-- Models Node `path.isAbsolute` for POSIX paths. -/
def isAbsolutePath (p : String) : Bool :=
  startsWithStr "/" p

/-- Models Node `path.join` for the two-argument use in this module: joins
the two segments with a single separator.  (Path normalization is not
modelled; no behavior of this module depends on it.) -/
def pathJoin (a b : String) : String :=
  if a = "" then b else if b = "" then a else a ++ "/" ++ b

/-- The message of the addressing-mode validation error thrown by the
source. -/
def configurationRequiredMessage : String :=
  "\"repositoryName\" and \"imageTag\" are both required if \"imageParameterName\" is omitted"

/-- The addressing-mode validation error (a plain `new Error`, so no
`code`). -/
def configurationError : JsError :=
  { code := none, message := configurationRequiredMessage }

/-- The message of the error the source substitutes for an `ENOENT`
failure. -/
def dockerNotInstalledMessage : String :=
  "Error building Docker image asset; you need to have Docker installed in order to be able to build image assets. Please install Docker and try again."

/-- The error the source substitutes for an `ENOENT` failure (a plain
`new Error`, so no `code`). -/
def dockerNotInstalledError : JsError :=
  { code := none, message := dockerNotInstalledMessage }

/-- The message of the integrity error thrown when no repo digest starts
with the required repository-URI prefix; it embeds the raw digest list. -/
def integrityMessage (requiredStart repoDigests : String) : String :=
  "Unable to identify repository digest (none starts with " ++ requiredStart ++ ") in:\n" ++ repoDigests

/-- The `--format` argument passed to `docker image inspect`. -/
def inspectFormatArg : String :=
  "\x7b\x7brange .RepoDigests\x7d\x7d\x7b\x7b.\x7d\x7d|\x7b\x7bend\x7d\x7d"

/-- Lines 16–20 of `docker.ts`: the addressing-mode validation performed
before anything else.  Returns the error to be thrown, if any. -/
def validateAddressing (asset : ContainerImageAssetMetadataEntry) : Option JsError :=
  if !(truthy asset.imageNameParameter) then
    if !(truthy asset.repositoryName) || !(truthy asset.imageTag) then
      some configurationError
    else none
  else none

/-- The `docker login` command composed by the source's `dockerLogin`
helper. -/
def dockerLoginCommand (credentials : EcrCredentials) : List String :=
  ["docker", "login",
   "--username", credentials.username,
   "--password", credentials.password,
   credentials.endpoint]

/-- Lines 77–93 of `docker.ts`: result derivation after the push.  In legacy
mode (`asset.imageNameParameter` truthy) the pushed image is inspected, the
repo digest starting with `repositoryUri + "@sha256:"` is selected (failing
with the integrity error otherwise), its repository-URI occurrence is
rewritten to the short repository name, and a single parameter is returned;
in direct mode the result is empty. -/
def deriveResult (asset : ContainerImageAssetMetadataEntry)
    (sh : List String → Except JsError String)
    (ecr : EcrRepositoryInfo) (imageUri : String) (tr : List Event) :
    Except JsError (List Parameter) × List Event :=
  if truthy asset.imageNameParameter then
    let inspectCommand := ["docker", "image", "inspect", imageUri, "--format", inspectFormatArg]
    let tr := tr ++ [Event.shell inspectCommand]
    match sh inspectCommand with
    | .error e => (.error e, tr)
    | .ok inspectOutput =>
      let repoDigests := jsTrim inspectOutput
      let requiredStart := ecr.repositoryUri ++ "@sha256:"
      match (splitPipe repoDigests).find? (fun digest => startsWithStr requiredStart digest) with
      | none => (.error { code := none, message := integrityMessage requiredStart repoDigests }, tr)
      | some repoDigest =>
        (.ok [{ ParameterKey := asset.imageNameParameter,
                ParameterValue := some (replaceFirst repoDigest ecr.repositoryUri ecr.repositoryName),
                UsePreviousValue := none }], tr)
  else (.ok [], tr)

/-- Lines 46–75 of `docker.ts`: compute the effective tag and image URI,
compose and run the `docker build` command, fetch credentials and run
`docker login`, run `docker push`, then derive the result. -/
def buildAndPush (asset : ContainerImageAssetMetadataEntry) (tk : ToolkitInfo)
    (sh : List String → Except JsError String)
    (contextPath : String) (ecr : EcrRepositoryInfo) (tr : List Event) :
    Except JsError (List Parameter) × List Event :=
  let imageTag := asset.imageTag.getD "latest"
  let imageUri := ecr.repositoryUri ++ ":" ++ imageTag
  let buildArgFlags := ((asset.buildArgs.getD []).map (fun kv => ["--build-arg", kv.1 ++ "=" ++ kv.2])).flatten
  let baseCommand := ["docker", "build"] ++ buildArgFlags ++ ["--tag", imageUri, contextPath]
  let baseCommand := if truthy asset.target then baseCommand ++ ["--target", asset.target.getD ""] else baseCommand
  let baseCommand := if truthy asset.file then baseCommand ++ ["--file", asset.file.getD ""] else baseCommand
  let tr := tr ++ [Event.shell baseCommand]
  match sh baseCommand with
  | .error e => (.error e, tr)
  | .ok _ =>
    let tr := tr ++ [Event.getEcrCredentials]
    match tk.getEcrCredentials with
    | .error e => (.error e, tr)
    | .ok credentials =>
      let loginCommand := dockerLoginCommand credentials
      let tr := tr ++ [Event.shell loginCommand]
      match sh loginCommand with
      | .error e => (.error e, tr)
      | .ok _ =>
        let pushCommand := ["docker", "push", imageUri]
        let tr := tr ++ [Event.shell pushCommand]
        match sh pushCommand with
        | .error e => (.error e, tr)
        | .ok _ => deriveResult asset sh ecr imageUri tr

/-- Lines 33–93 of `docker.ts`: the body of the `try` block — resolve the
ECR repository, take the immutable-asset skip when both `repositoryName`
and `imageTag` are truthy and the image already exists, otherwise build,
login, push and derive the result. -/
def prepareBody (asset : ContainerImageAssetMetadataEntry) (tk : ToolkitInfo)
    (sh : List String → Except JsError String)
    (contextPath : String) (tr : List Event) :
    Except JsError (List Parameter) × List Event :=
  let tr := tr ++ [Event.prepareEcrRepository asset]
  match tk.prepareEcrRepository asset with
  | .error e => (.error e, tr)
  | .ok ecr =>
    if truthy asset.repositoryName && truthy asset.imageTag then
      let rn := asset.repositoryName.getD ""
      let it := asset.imageTag.getD ""
      let tr := tr ++ [Event.checkEcrImage rn it]
      match tk.checkEcrImage rn it with
      | .error e => (.error e, tr)
      | .ok true => (.ok [], tr)
      | .ok false => buildAndPush asset tk sh contextPath ecr tr
    else
      buildAndPush asset tk sh contextPath ecr tr

/-- The embedding of `prepareContainerAsset` (docker.ts lines 11–101):
validate the addressing mode, short-circuit on `reuse`, resolve the context
path, run the `try` body, and convert an `ENOENT` failure into the
"install Docker" error while rethrowing every other failure unchanged. -/
def prepareContainerAsset (assemblyDir : String)
    (asset : ContainerImageAssetMetadataEntry) (tk : ToolkitInfo)
    (sh : List String → Except JsError String)
    (reuse : Bool) (tr : List Event) :
    Except JsError (List Parameter) × List Event :=
  match validateAddressing asset with
  | some e => (.error e, tr)
  | none =>
    if reuse then
      (.ok [{ ParameterKey := asset.imageNameParameter, ParameterValue := none, UsePreviousValue := some true }], tr)
    else
      let contextPath := if isAbsolutePath asset.path then asset.path else pathJoin assemblyDir asset.path
      match prepareBody asset tk sh contextPath tr with
      | (.error e, tr') =>
        if e.code = some "ENOENT" then (.error dockerNotInstalledError, tr')
        else (.error e, tr')
      | ok => ok


/-! Concrete fixtures used by the closed-form theorems below: oracle
instantiations mirroring the stubs of `test/docker.test.ts`, and sample
asset descriptors. -/

/-- A repository handle with distinct URI and short name. -/
def sampleRepository : EcrRepositoryInfo :=
  { repositoryUri := "repoUri", repositoryName := "repositoryName" }

/-- Sample registry credentials. -/
def sampleCredentials : EcrCredentials :=
  { username := "u", password := "p", endpoint := "ep" }

/-- A toolkit oracle whose registry calls all succeed, and whose image
existence check reports the image as present. -/
def tkHappy : ToolkitInfo :=
  { prepareEcrRepository := fun _ => .ok sampleRepository,
    checkEcrImage := fun _ _ => .ok true,
    getEcrCredentials := .ok sampleCredentials }

/-- A shell oracle answering every command successfully with a fixed
output. -/
def shHappy (out : String) : List String → Except JsError String := fun _ => .ok out

/-- The error used by the repository's own tests to stop execution at the
first shell invocation. -/
def stoptestError : JsError := { code := none, message := "STOPTEST" }

/-- The toolkit oracle of the build-command tests: `prepareEcrRepository`
resolves to repository URI `uri` / name `name`. -/
def tkStub : ToolkitInfo :=
  { prepareEcrRepository := fun _ => .ok { repositoryUri := "uri", repositoryName := "name" },
    checkEcrImage := fun _ _ => .ok false,
    getEcrCredentials := .error stoptestError }

/-- A shell oracle rejecting every command (as the tests' `shellStub`). -/
def shReject : List String → Except JsError String := fun _ => .error stoptestError

/-- A process-spawn failure for a missing executable. -/
def enoentError : JsError := { code := some "ENOENT", message := "spawn docker ENOENT" }

/-- A toolkit oracle whose every call fails with `ENOENT`. -/
def tkEnoent : ToolkitInfo :=
  { prepareEcrRepository := fun _ => .error enoentError,
    checkEcrImage := fun _ _ => .error enoentError,
    getEcrCredentials := .error enoentError }

/-- A toolkit oracle failing with `ENOENT` only at the credential fetch. -/
def tkCredEnoent : ToolkitInfo :=
  { prepareEcrRepository := fun _ => .ok sampleRepository,
    checkEcrImage := fun _ _ => .ok false,
    getEcrCredentials := .error enoentError }

/-- An ordinary (non-`ENOENT`) failure. -/
def otherError : JsError := { code := none, message := "Command failed: docker build" }

/-- A toolkit oracle whose every call fails with an ordinary error. -/
def tkOther : ToolkitInfo :=
  { prepareEcrRepository := fun _ => .error otherError,
    checkEcrImage := fun _ _ => .error otherError,
    getEcrCredentials := .error otherError }

/-- A legacy-addressed asset (only `imageNameParameter` set). -/
def assetLegacy : ContainerImageAssetMetadataEntry :=
  { id := "assetId", path := "/foo", sourceHash := "0123456789abcdef",
    imageNameParameter := some "MyParameter" }

/-- A direct-addressed asset (explicit `repositoryName` and `imageTag`,
no `imageNameParameter`). -/
def assetDirect : ContainerImageAssetMetadataEntry :=
  { id := "assetId", path := "/foo", sourceHash := "0123456789abcdef",
    repositoryName := some "some-name", imageTag := some "1.2.3" }

/-- An asset with both addressing modes populated simultaneously. -/
def assetBothModes : ContainerImageAssetMetadataEntry :=
  { id := "assetId", path := "/foo", sourceHash := "0123456789abcdef",
    repositoryName := some "R", imageTag := some "T",
    imageNameParameter := some "P" }

/-- An asset satisfying neither addressing mode (`repositoryName` without
`imageTag`, no `imageNameParameter`). -/
def assetNoTag : ContainerImageAssetMetadataEntry :=
  { id := "assetId", path := "/foo", sourceHash := "0123456789abcdef",
    repositoryName := some "some-name" }

/-- The asset of the repository test `passes the correct args to docker
build` (`test/docker.test.ts`): explicit `repositoryName`, two build args,
no explicit `imageTag`. -/
def assetSourceHashTest : ContainerImageAssetMetadataEntry :=
  { id := "assetId", path := "/foo", sourceHash := "1234567890abcdef",
    imageNameParameter := some "MyParameter", repositoryName := some "some-name",
    buildArgs := some [("a", "b"), ("c", "d")] }

/-- The asset of the repository test `passes the correct target to docker
build`: as `assetSourceHashTest` plus a build target. -/
def assetBuildTarget : ContainerImageAssetMetadataEntry :=
  { id := "assetId", path := "/foo", sourceHash := "1234567890abcdef",
    imageNameParameter := some "MyParameter", repositoryName := some "some-name",
    buildArgs := some [("a", "b"), ("c", "d")], target := some "a-target" }

/-! Helper lemmas. -/

/-- A list is a `List.isPrefixOf` of itself followed by anything. -/
theorem isPrefixOf_append_self (l v : List Char) : l.isPrefixOf (l ++ v) = true := by
  induction l with
  | nil => simp [List.isPrefixOf]
  | cons a l ih => simp [List.isPrefixOf, ih]

/-- Replacing the first occurrence of `a` in `a ++ b` yields `r ++ b`:
on a string that starts with the pattern, JavaScript's
`String.prototype.replace` rewrites exactly that leading occurrence. -/
theorem replaceFirst_append (a b r : String) : replaceFirst (a ++ b) a r = r ++ b := by
  rcases a with ⟨la⟩
  rcases b with ⟨lb⟩
  rcases r with ⟨lr⟩
  have happ : ∀ (x y : List Char), String.mk x ++ String.mk y = String.mk (x ++ y) := fun _ _ => rfl
  rw [happ]
  unfold replaceFirst
  cases la with
  | nil => simp [happ]
  | cons c cs =>
    have hp := isPrefixOf_append_self (c :: cs) lb
    rw [List.cons_append] at hp
    simp [replaceFirstAux, hp, happ, List.drop_left]

/-- If validation passed but no explicit `imageTag` is set, the legacy
parameter key must be truthy. -/
theorem truthyParam_of_valid_noTag (asset : ContainerImageAssetMetadataEntry)
    (hval : validateAddressing asset = none) (htag : asset.imageTag = none) :
    truthy asset.imageNameParameter = true := by
  by_cases h : truthy asset.imageNameParameter = true
  · exact h
  · rw [Bool.not_eq_true] at h
    simp [validateAddressing, h, htag, truthy] at hval
    exact hval

/-! Claim theorems. -/

/-- C1: for an asset with both `repositoryName` and `imageTag` explicitly
present, when `reuse = false` and the registry reports that exact
`repository:tag` as already existing, `prepareContainerAsset` returns an
empty parameter list having performed exactly two collaborator calls —
repository resolution first, then the existence check on that exact pair —
and no shell (build/login/push) invocation at all. -/
theorem claim_C1_immutable_skip
    (assemblyDir : String) (asset : ContainerImageAssetMetadataEntry)
    (tk : ToolkitInfo) (sh : List String → Except JsError String) (tr : List Event)
    (rn it : String) (ecr : EcrRepositoryInfo)
    (hrn : asset.repositoryName = some rn) (hrne : rn.isEmpty = false)
    (hit : asset.imageTag = some it) (hite : it.isEmpty = false)
    (hecr : tk.prepareEcrRepository asset = .ok ecr)
    (hchk : tk.checkEcrImage rn it = .ok true) :
    prepareContainerAsset assemblyDir asset tk sh false tr
      = (.ok [], tr ++ [Event.prepareEcrRepository asset, Event.checkEcrImage rn it]) := by
  have hval : validateAddressing asset = none := by
    simp [validateAddressing, truthy, hrn, hit, hrne, hite]
  simp [prepareContainerAsset, hval, prepareBody, hecr, truthy, hrn, hit, hrne, hite, hchk]

/-- Witness for C1 at the direct-addressed sample asset with an
all-successful registry oracle. -/
theorem claim_C1_immutable_skip_w :
    prepareContainerAsset "." assetDirect tkHappy (shHappy "") false []
      = (.ok [], [Event.prepareEcrRepository assetDirect, Event.checkEcrImage "some-name" "1.2.3"]) := by
  have h := claim_C1_immutable_skip "." assetDirect tkHappy (shHappy "") []
    "some-name" "1.2.3" sampleRepository (by decide) (by decide) (by decide) (by decide) rfl rfl
  exact h.trans (by decide)

/-- C3: `prepareContainerAsset` fails with the configuration error — with
the trace unchanged, hence before contacting any collaborator, and for any
value of `reuse`, hence before the reuse short-circuit — whenever
`imageNameParameter` is not (truthily) present and `repositoryName`,
`imageTag` are not both (truthily) present; and validation passes whenever
`imageNameParameter` is present or both `repositoryName` and `imageTag`
are. -/
theorem claim_C3_validation
    (assemblyDir : String) (asset : ContainerImageAssetMetadataEntry)
    (tk : ToolkitInfo) (sh : List String → Except JsError String)
    (reuse : Bool) (tr : List Event) :
    ((truthy asset.imageNameParameter = false
        ∧ (truthy asset.repositoryName = false ∨ truthy asset.imageTag = false)) →
      prepareContainerAsset assemblyDir asset tk sh reuse tr = (.error configurationError, tr))
    ∧ ((truthy asset.imageNameParameter = true
        ∨ (truthy asset.repositoryName = true ∧ truthy asset.imageTag = true)) →
      validateAddressing asset = none) := by
  constructor
  · rintro ⟨h1, h2⟩
    have hval : validateAddressing asset = some configurationError := by
      rcases h2 with h2 | h2 <;> simp [validateAddressing, h1, h2]
    simp [prepareContainerAsset, hval]
  · rintro (h | ⟨h1, h2⟩)
    · simp [validateAddressing, h]
    · simp [validateAddressing, h1, h2]

/-- Witness for C3: an asset with `repositoryName` but no `imageTag` and no
`imageNameParameter` fails immediately with the configuration error even
under `reuse = true`, while each of the two sample addressing modes passes
validation. -/
theorem claim_C3_validation_w :
    prepareContainerAsset "." assetNoTag tkHappy (shHappy "") true []
      = (.error configurationError, [])
    ∧ validateAddressing assetLegacy = none
    ∧ validateAddressing assetDirect = none := by
  refine ⟨(claim_C3_validation "." assetNoTag tkHappy (shHappy "") true []).1 (by decide),
    (claim_C3_validation "." assetLegacy tkHappy (shHappy "") true []).2 (by decide),
    (claim_C3_validation "." assetDirect tkHappy (shHappy "") true []).2 (by decide)⟩

/-- C4 counterexample: for a validation-passing asset with no
`imageNameParameter`, `reuse = true` does not return an empty result as the
claim states; it returns one entry with an absent key and
`UsePreviousValue = true`. -/
theorem claim_C4_reuse_counterexample :
    prepareContainerAsset "." assetDirect tkHappy (shHappy "") true []
      = (.ok [{ ParameterKey := none, ParameterValue := none, UsePreviousValue := some true }], [])
    ∧ [({ ParameterKey := none, ParameterValue := none, UsePreviousValue := some true } : Parameter)]
        ≠ ([] : List Parameter) := by
  decide

/-- C4 amended: for every validation-passing asset, `reuse = true` contacts
no collaborator (the trace is unchanged) and returns exactly one
`UsePreviousValue = true` entry whose key is `imageNameParameter` — the key
being absent rather than the list being empty when `imageNameParameter` is
absent. -/
theorem claim_C4_reuse_amended
    (assemblyDir : String) (asset : ContainerImageAssetMetadataEntry)
    (tk : ToolkitInfo) (sh : List String → Except JsError String) (tr : List Event)
    (hval : validateAddressing asset = none) :
    prepareContainerAsset assemblyDir asset tk sh true tr
      = (.ok [{ ParameterKey := asset.imageNameParameter, ParameterValue := none,
                UsePreviousValue := some true }], tr) := by
  simp [prepareContainerAsset, hval]

/-- Witness for the amended C4 at both sample addressing modes. -/
theorem claim_C4_reuse_amended_w :
    prepareContainerAsset "." assetLegacy tkHappy (shHappy "") true []
      = (.ok [{ ParameterKey := some "MyParameter", ParameterValue := none,
                UsePreviousValue := some true }], [])
    ∧ prepareContainerAsset "." assetDirect tkHappy (shHappy "") true []
      = (.ok [{ ParameterKey := none, ParameterValue := none,
                UsePreviousValue := some true }], []) := by
  exact ⟨claim_C4_reuse_amended "." assetLegacy tkHappy (shHappy "") [] (by decide),
    claim_C4_reuse_amended "." assetDirect tkHappy (shHappy "") [] (by decide)⟩

/-- C9 counterexample: an asset with both addressing modes present
simultaneously passes validation and `prepareContainerAsset` does not fail
with the configuration error (shown on the reuse path, which any
configuration failure would have to precede). -/
theorem claim_C9_both_modes_counterexample :
    validateAddressing assetBothModes = none
    ∧ (prepareContainerAsset "." assetBothModes tkHappy (shHappy "") true []).fst
        = .ok [{ ParameterKey := some "P", ParameterValue := none, UsePreviousValue := some true }]
    ∧ (prepareContainerAsset "." assetBothModes tkHappy (shHappy "") true []).fst
        ≠ .error configurationError := by
  decide

/-- C9 amended: the configuration check requires at least one addressing
mode, not exactly one: an asset with both modes present simultaneously
passes validation, and publish proceeds (here shown returning the reuse
marker rather than any configuration error). -/
theorem claim_C9_validation_amended
    (assemblyDir : String) (asset : ContainerImageAssetMetadataEntry)
    (tk : ToolkitInfo) (sh : List String → Except JsError String) (tr : List Event)
    (h1 : truthy asset.imageNameParameter = true)
    (h2 : truthy asset.repositoryName = true)
    (h3 : truthy asset.imageTag = true) :
    validateAddressing asset = none
    ∧ prepareContainerAsset assemblyDir asset tk sh true tr
      = (.ok [{ ParameterKey := asset.imageNameParameter, ParameterValue := none,
                UsePreviousValue := some true }], tr) := by
  have hval : validateAddressing asset = none := by simp [validateAddressing, h1]
  exact ⟨hval, by simp [prepareContainerAsset, hval]⟩

/-- Witness for the amended C9 at the both-modes sample asset. -/
theorem claim_C9_validation_amended_w :
    validateAddressing assetBothModes = none
    ∧ prepareContainerAsset "." assetBothModes tkHappy (shHappy "") true []
      = (.ok [{ ParameterKey := some "P", ParameterValue := none,
                UsePreviousValue := some true }], []) := by
  exact claim_C9_validation_amended "." assetBothModes tkHappy (shHappy "") []
    (by decide) (by decide) (by decide)

/-- C5: when the `try` body of publish fails, an error carrying code
`ENOENT` is replaced by the fixed "install Docker" environment error, and
any other error surfaces to the caller as exactly the same error value —
no wrapping — with the same collaborator trace — no retry. -/
theorem claim_C5_enoent_wrapping
    (assemblyDir : String) (asset : ContainerImageAssetMetadataEntry)
    (tk : ToolkitInfo) (sh : List String → Except JsError String)
    (tr tr' : List Event) (e : JsError)
    (hval : validateAddressing asset = none)
    (hbody : prepareBody asset tk sh
        (if isAbsolutePath asset.path then asset.path else pathJoin assemblyDir asset.path) tr
      = (.error e, tr')) :
    (e.code = some "ENOENT" →
        prepareContainerAsset assemblyDir asset tk sh false tr = (.error dockerNotInstalledError, tr'))
    ∧ (e.code ≠ some "ENOENT" →
        prepareContainerAsset assemblyDir asset tk sh false tr = (.error e, tr')) := by
  constructor <;> intro h <;> simp [prepareContainerAsset, hval, hbody, h]

/-- Witness for C5: an `ENOENT` rejection from inside the body becomes the
install-Docker error, while an ordinary error (here from the same step)
propagates as the identical error value. -/
theorem claim_C5_enoent_wrapping_w :
    prepareContainerAsset "." assetLegacy tkEnoent (shHappy "") false []
      = (.error dockerNotInstalledError, [Event.prepareEcrRepository assetLegacy])
    ∧ prepareContainerAsset "." assetLegacy tkOther (shHappy "") false []
      = (.error otherError, [Event.prepareEcrRepository assetLegacy]) := by
  refine ⟨(claim_C5_enoent_wrapping "." assetLegacy tkEnoent (shHappy "") []
      [Event.prepareEcrRepository assetLegacy] enoentError (by decide) (by decide)).1 (by decide),
    (claim_C5_enoent_wrapping "." assetLegacy tkOther (shHappy "") []
      [Event.prepareEcrRepository assetLegacy] otherError (by decide) (by decide)).2 (by decide)⟩

/-- C2: in legacy mode (truthy `imageNameParameter`, `reuse = false`, skip
branch not taken, all collaborator calls succeeding, `out` the digest
inspection output): if the pipe-split digest list has an entry starting
with `repositoryUri ++ "@sha256:"` — the first such entry, written
`repositoryUri ++ suffix` — publish returns exactly one parameter keyed by
the legacy key whose value rewrites that prefix to the short repository
name, `repositoryName ++ suffix`; if no entry has that prefix, publish
fails with the integrity error embedding the raw digest list. -/
theorem claim_C2_legacy_digest
    (assemblyDir : String) (asset : ContainerImageAssetMetadataEntry)
    (tk : ToolkitInfo) (sh : List String → Except JsError String) (tr : List Event)
    (key : String) (ecr : EcrRepositoryInfo) (creds : EcrCredentials) (out : String)
    (hkey : asset.imageNameParameter = some key) (hkeyne : key.isEmpty = false)
    (hguard : (truthy asset.repositoryName && truthy asset.imageTag) = false)
    (hecr : tk.prepareEcrRepository asset = .ok ecr)
    (hcred : tk.getEcrCredentials = .ok creds)
    (hsh : ∀ c, sh c = .ok out) :
    (∀ d suffix,
        (splitPipe (jsTrim out)).find?
            (fun digest => startsWithStr (ecr.repositoryUri ++ "@sha256:") digest) = some d →
        d = ecr.repositoryUri ++ suffix →
        (prepareContainerAsset assemblyDir asset tk sh false tr).fst
          = .ok [{ ParameterKey := some key,
                   ParameterValue := some (ecr.repositoryName ++ suffix),
                   UsePreviousValue := none }])
    ∧ ((splitPipe (jsTrim out)).find?
            (fun digest => startsWithStr (ecr.repositoryUri ++ "@sha256:") digest) = none →
        (prepareContainerAsset assemblyDir asset tk sh false tr).fst
          = .error { code := none,
                     message := integrityMessage (ecr.repositoryUri ++ "@sha256:") (jsTrim out) }) := by
  have hval : validateAddressing asset = none := by
    simp [validateAddressing, truthy, hkey, hkeyne]
  have htp : truthy asset.imageNameParameter = true := by simp [truthy, hkey, hkeyne]
  have htpk : truthy (some key) = true := by simp [truthy, hkeyne]
  constructor
  · intro d suffix hfind hd
    have hrepl : replaceFirst d ecr.repositoryUri ecr.repositoryName
        = ecr.repositoryName ++ suffix := by
      rw [hd, replaceFirst_append]
    simp [prepareContainerAsset, hval, prepareBody, hecr, hguard, buildAndPush, hsh, hcred,
      deriveResult, htp, htpk, hfind, hrepl, hkey]
  · intro hfind
    simp [prepareContainerAsset, hval, prepareBody, hecr, hguard, buildAndPush, hsh, hcred,
      deriveResult, htp, htpk, hfind, hkey]

/-- Witness for C2 at the claim's example: digest list
`otherrepo@sha256:aaa|repoUri@sha256:bbb` against target `repoUri` yields
the parameter value `repositoryName@sha256:bbb`. -/
theorem claim_C2_legacy_digest_w :
    (prepareContainerAsset "." assetLegacy tkHappy
        (shHappy "otherrepo@sha256:aaa|repoUri@sha256:bbb") false []).fst
      = .ok [{ ParameterKey := some "MyParameter",
               ParameterValue := some "repositoryName@sha256:bbb",
               UsePreviousValue := none }] := by
  have h := (claim_C2_legacy_digest "." assetLegacy tkHappy
      (shHappy "otherrepo@sha256:aaa|repoUri@sha256:bbb") [] "MyParameter" sampleRepository
      sampleCredentials "otherrepo@sha256:aaa|repoUri@sha256:bbb"
      (by decide) (by decide) (by decide) rfl rfl (fun _ => rfl)).1
      "repoUri@sha256:bbb" "@sha256:bbb" (by decide) (by decide)
  exact h.trans (by decide)

/-- C6: the command handed to the build tool is exactly
`docker build [--build-arg K=V]... --tag repoUri:tag contextPath
[--target stage] [--file dockerfile]` — one `--build-arg K=V` pair per
`buildArgs` entry in insertion order, the optional flags present iff the
corresponding field is (truthily) present, after the tag and context path,
in that relative order.  Shown on a run whose shell rejects, so the build
command is the only shell invocation in the trace. -/
theorem claim_C6_build_command
    (assemblyDir : String) (asset : ContainerImageAssetMetadataEntry)
    (tk : ToolkitInfo) (sh : List String → Except JsError String) (tr : List Event)
    (ecr : EcrRepositoryInfo) (e : JsError)
    (hval : validateAddressing asset = none)
    (hecr : tk.prepareEcrRepository asset = .ok ecr)
    (hguard : (truthy asset.repositoryName && truthy asset.imageTag) = false)
    (hsh : ∀ c, sh c = .error e) :
    (prepareContainerAsset assemblyDir asset tk sh false tr).snd
      = tr ++ [Event.prepareEcrRepository asset,
          Event.shell
            (["docker", "build"]
              ++ ((asset.buildArgs.getD []).map (fun kv => ["--build-arg", kv.1 ++ "=" ++ kv.2])).flatten
              ++ ["--tag", ecr.repositoryUri ++ ":" ++ asset.imageTag.getD "latest",
                  if isAbsolutePath asset.path then asset.path else pathJoin assemblyDir asset.path]
              ++ (if truthy asset.target then ["--target", asset.target.getD ""] else [])
              ++ (if truthy asset.file then ["--file", asset.file.getD ""] else []))] := by
  by_cases ht : truthy asset.target = true <;> by_cases hf : truthy asset.file = true <;>
    simp [prepareContainerAsset, hval, prepareBody, hecr, hguard, buildAndPush, hsh,
      ht, hf, apply_ite Prod.snd]

/-- Witness for C6 at the asset of the repository's build-target test:
two build args in order, then the tag, the context path and the target
flag. -/
theorem claim_C6_build_command_w :
    (prepareContainerAsset "." assetBuildTarget tkStub shReject false []).snd
      = [Event.prepareEcrRepository assetBuildTarget,
         Event.shell ["docker", "build", "--build-arg", "a=b", "--build-arg", "c=d",
           "--tag", "uri:latest", "/foo", "--target", "a-target"]] := by
  have h := claim_C6_build_command "." assetBuildTarget tkStub shReject []
      { repositoryUri := "uri", repositoryName := "name" } stoptestError
      (by decide) rfl (by decide) (fun _ => rfl)
  exact h.trans (by decide)

/-- C7: for an asset without an explicit `imageTag` that reaches the build
step, the image reference used in the build command, the push command (and
the inspect command) is `repositoryUri ++ ":" ++ "latest"` — the fixed
backward-compatibility constant — for every asset, so regardless of its
`sourceHash`. -/
theorem claim_C7_default_latest_tag
    (assemblyDir : String) (asset : ContainerImageAssetMetadataEntry)
    (tk : ToolkitInfo) (sh : List String → Except JsError String) (tr : List Event)
    (ecr : EcrRepositoryInfo) (creds : EcrCredentials) (out : String)
    (hval : validateAddressing asset = none)
    (htag : asset.imageTag = none)
    (hecr : tk.prepareEcrRepository asset = .ok ecr)
    (hcred : tk.getEcrCredentials = .ok creds)
    (hsh : ∀ c, sh c = .ok out) :
    (prepareContainerAsset assemblyDir asset tk sh false tr).snd
      = tr ++ [Event.prepareEcrRepository asset,
          Event.shell
            (["docker", "build"]
              ++ ((asset.buildArgs.getD []).map (fun kv => ["--build-arg", kv.1 ++ "=" ++ kv.2])).flatten
              ++ ["--tag", ecr.repositoryUri ++ ":" ++ "latest",
                  if isAbsolutePath asset.path then asset.path else pathJoin assemblyDir asset.path]
              ++ (if truthy asset.target then ["--target", asset.target.getD ""] else [])
              ++ (if truthy asset.file then ["--file", asset.file.getD ""] else [])),
          Event.getEcrCredentials,
          Event.shell (dockerLoginCommand creds),
          Event.shell ["docker", "push", ecr.repositoryUri ++ ":" ++ "latest"],
          Event.shell ["docker", "image", "inspect", ecr.repositoryUri ++ ":" ++ "latest",
            "--format", inspectFormatArg]] := by
  have htp := truthyParam_of_valid_noTag asset hval htag
  have hn : truthy none = false := rfl
  rcases hfind : (splitPipe (jsTrim out)).find?
      (fun digest => startsWithStr (ecr.repositoryUri ++ "@sha256:") digest) with _ | d <;>
    by_cases ht : truthy asset.target = true <;> by_cases hf : truthy asset.file = true <;>
      simp [prepareContainerAsset, hval, prepareBody, hecr, hn, buildAndPush, hsh, hcred,
        deriveResult, htp, htag, hfind, ht, hf, apply_ite Prod.snd]

/-- Witness for C7 at an asset with `sourceHash` set and no `imageTag`:
the build, push and inspect commands all use tag `latest`. -/
theorem claim_C7_default_latest_tag_w :
    (prepareContainerAsset "." assetSourceHashTest tkHappy (shHappy "x") false []).snd
      = [Event.prepareEcrRepository assetSourceHashTest,
         Event.shell ["docker", "build", "--build-arg", "a=b", "--build-arg", "c=d",
           "--tag", "repoUri:latest", "/foo"],
         Event.getEcrCredentials,
         Event.shell ["docker", "login", "--username", "u", "--password", "p", "ep"],
         Event.shell ["docker", "push", "repoUri:latest"],
         Event.shell ["docker", "image", "inspect", "repoUri:latest", "--format", inspectFormatArg]] := by
  have h := claim_C7_default_latest_tag "." assetSourceHashTest tkHappy (shHappy "x") []
      sampleRepository sampleCredentials "x" (by decide) rfl rfl rfl (fun _ => rfl)
  exact h.trans (by decide)

/-- C8 evaluated at the failing input: for the exact asset of the
repository's own test `passes the correct args to docker build`
(`test/docker.test.ts`, `sourceHash = "1234567890abcdef"`, no explicit
`imageTag`) with the test's oracle stubs, the code invokes
`docker build ... --tag uri:latest ...` — the tag is the fixed constant,
not derived from `sourceHash` as the claim (and that test, which expects
`--tag uri:1234567890abcdef`) requires. -/
theorem claim_C8_sourcehash_tag_bug :
    prepareContainerAsset "." assetSourceHashTest tkStub shReject false []
      = (.error stoptestError,
         [Event.prepareEcrRepository assetSourceHashTest,
          Event.shell ["docker", "build", "--build-arg", "a=b", "--build-arg", "c=d",
            "--tag", "uri:latest", "/foo"]])
    ∧ "uri:latest" ≠ "uri:" ++ assetSourceHashTest.sourceHash := by
  decide

/-- C10: the `ENOENT` → install-Docker conversion applies to a failure
raised at any step inside the publish body, not only the build: repository
resolution, the image-existence check, the build command, the credential
fetch, the login command, the push command, and the digest inspection
command.  Each conjunct places an `ENOENT`-coded failure at one step (all
earlier steps succeeding) and concludes that publish fails with the
install-Docker environment error. -/
theorem claim_C10_enoent_any_step
    (assemblyDir : String) (asset : ContainerImageAssetMetadataEntry)
    (tk : ToolkitInfo) (sh : List String → Except JsError String) (tr : List Event)
    (e : JsError)
    (hval : validateAddressing asset = none)
    (he : e.code = some "ENOENT") :
    (tk.prepareEcrRepository asset = .error e →
      (prepareContainerAsset assemblyDir asset tk sh false tr).fst = .error dockerNotInstalledError)
    ∧ (∀ ecr rn it, tk.prepareEcrRepository asset = .ok ecr →
        asset.repositoryName = some rn → rn.isEmpty = false →
        asset.imageTag = some it → it.isEmpty = false →
        tk.checkEcrImage rn it = .error e →
        (prepareContainerAsset assemblyDir asset tk sh false tr).fst = .error dockerNotInstalledError)
    ∧ (∀ ecr, tk.prepareEcrRepository asset = .ok ecr →
        (truthy asset.repositoryName && truthy asset.imageTag) = false →
        (∀ c, sh c = .error e) →
        (prepareContainerAsset assemblyDir asset tk sh false tr).fst = .error dockerNotInstalledError)
    ∧ (∀ ecr s, tk.prepareEcrRepository asset = .ok ecr →
        (truthy asset.repositoryName && truthy asset.imageTag) = false →
        (∀ c, sh c = .ok s) →
        tk.getEcrCredentials = .error e →
        (prepareContainerAsset assemblyDir asset tk sh false tr).fst = .error dockerNotInstalledError)
    ∧ (∀ ecr s creds, tk.prepareEcrRepository asset = .ok ecr →
        (truthy asset.repositoryName && truthy asset.imageTag) = false →
        tk.getEcrCredentials = .ok creds →
        (∀ c, sh c = if c = dockerLoginCommand creds then .error e else .ok s) →
        (prepareContainerAsset assemblyDir asset tk sh false tr).fst = .error dockerNotInstalledError)
    ∧ (∀ ecr s creds, tk.prepareEcrRepository asset = .ok ecr →
        (truthy asset.repositoryName && truthy asset.imageTag) = false →
        tk.getEcrCredentials = .ok creds →
        (∀ c, sh c = if c = ["docker", "push", ecr.repositoryUri ++ ":" ++ asset.imageTag.getD "latest"]
          then .error e else .ok s) →
        (prepareContainerAsset assemblyDir asset tk sh false tr).fst = .error dockerNotInstalledError)
    ∧ (∀ ecr s creds, tk.prepareEcrRepository asset = .ok ecr →
        (truthy asset.repositoryName && truthy asset.imageTag) = false →
        tk.getEcrCredentials = .ok creds →
        truthy asset.imageNameParameter = true →
        (∀ c, sh c = if c = ["docker", "image", "inspect",
              ecr.repositoryUri ++ ":" ++ asset.imageTag.getD "latest", "--format", inspectFormatArg]
          then .error e else .ok s) →
        (prepareContainerAsset assemblyDir asset tk sh false tr).fst = .error dockerNotInstalledError) := by
  refine ⟨?_, ?_, ?_, ?_, ?_, ?_, ?_⟩
  · intro h1
    simp [prepareContainerAsset, hval, prepareBody, h1, he]
  · intro ecr rn it h1 hrn hrne hit hite h2
    simp [prepareContainerAsset, hval, prepareBody, h1, truthy, hrn, hrne, hit, hite, h2, he]
  · intro ecr h1 hg hsh
    simp [prepareContainerAsset, hval, prepareBody, h1, hg, buildAndPush, hsh, he]
  · intro ecr s h1 hg hsh hcred
    simp [prepareContainerAsset, hval, prepareBody, h1, hg, buildAndPush, hsh, hcred, he]
  · intro ecr s creds h1 hg hcred hsh
    by_cases ht : truthy asset.target = true <;> by_cases hf : truthy asset.file = true <;>
      simp [prepareContainerAsset, hval, prepareBody, h1, hg, buildAndPush, hsh, hcred,
        dockerLoginCommand, ht, hf, he]
  · intro ecr s creds h1 hg hcred hsh
    by_cases ht : truthy asset.target = true <;> by_cases hf : truthy asset.file = true <;>
      simp [prepareContainerAsset, hval, prepareBody, h1, hg, buildAndPush, hsh, hcred,
        dockerLoginCommand, ht, hf, he]
  · intro ecr s creds h1 hg hcred htp hsh
    by_cases ht : truthy asset.target = true <;> by_cases hf : truthy asset.file = true <;>
      simp [prepareContainerAsset, hval, prepareBody, h1, hg, buildAndPush, deriveResult, hsh,
        hcred, dockerLoginCommand, htp, ht, hf, he]

/-- Witness for C10: an `ENOENT` failure at repository resolution (first
conjunct) and one at the credential fetch (fourth conjunct) both surface as
the install-Docker environment error. -/
theorem claim_C10_enoent_any_step_w :
    (prepareContainerAsset "." assetLegacy tkEnoent (shHappy "") false []).fst
      = .error dockerNotInstalledError
    ∧ (prepareContainerAsset "." assetLegacy tkCredEnoent (shHappy "") false []).fst
      = .error dockerNotInstalledError := by
  refine ⟨(claim_C10_enoent_any_step "." assetLegacy tkEnoent (shHappy "") [] enoentError
      (by decide) (by decide)).1 rfl,
    (claim_C10_enoent_any_step "." assetLegacy tkCredEnoent (shHappy "") [] enoentError
      (by decide) (by decide)).2.2.2.1 sampleRepository "" rfl (by decide) (fun _ => rfl) rfl⟩
